import Mathlib

/-
  Verification of the MOS-DEF monitor-rotation engine.

  Shallow embedding of the selector-resolution, batch-rotation and
  timed-rollback core from src/util.c, src/rotate.c and src/cli.c.
  The Windows display API (EnumDisplaySettingsExA / ChangeDisplaySettingsExA)
  is modelled as an explicit environment of pure functions; every call the
  code would make to the display-settings writer is returned as part of the
  result, so "the writer was never invoked" is expressible as an equation.
-/

namespace MosDef

/-- Display orientation, mirroring the DMDO_DEFAULT / DMDO_90 / DMDO_180 /
DMDO_270 constants the C code compares orientations against. -/
inductive Orientation where
  | deg0
  | deg90
  | deg180
  | deg270
deriving DecidableEq

/-- RotationCommand from rotate.h (ROTATION_LANDSCAPE / ROTATION_PORTRAIT /
ROTATION_TOGGLE). -/
inductive RotationCommand where
  | landscape
  | portrait
  | toggle
deriving DecidableEq

/-- SelectorType from util.h. -/
inductive SelectorType where
  | monitor_id
  | device_path
  | device_name
deriving DecidableEq

/-- Selector from util.h: a type together with the string value. -/
structure Selector where
  type : SelectorType
  value : String
deriving DecidableEq

/-- MonitorInfo from enum.h (the fields the core consumes). -/
structure MonitorInfo where
  id : String
  device_name : String
  device_path : String
  width : Nat
  height : Nat
  orientation : Orientation
  device_id : String
deriving DecidableEq

/-- The slice of a DEVMODEA record the engine reads and writes:
dmDisplayOrientation, dmPelsWidth, dmPelsHeight. -/
structure DevMode where
  orientation : Orientation
  width : Nat
  height : Nat
deriving DecidableEq

/-- The dmFields bits the code sets explicitly before a
ChangeDisplaySettingsExA call (DM_DISPLAYORIENTATION, DM_PELSWIDTH,
DM_PELSHEIGHT). -/
structure FieldMask where
  orientation : Bool
  width : Bool
  height : Bool
deriving DecidableEq

/-- One invocation of the display-settings writer: device path, the dmFields
bits set, and the DEVMODE contents handed over. -/
abbrev WriteCall := String × FieldMask × DevMode

/-- The external display API: EnumDisplaySettingsExA as a reader that can
fail, ChangeDisplaySettingsExA as a writer returning a DISP_CHANGE code. -/
structure DisplayEnv where
  read : String → Option DevMode
  write : String → FieldMask → DevMode → Int

/-- RotationResult from rotate.h. -/
structure RotationResult where
  success : Bool
  error_code : Int
  old_orientation : Orientation
  new_orientation : Orientation
deriving DecidableEq

/-- BatchRotationResult from rotate.h; results holds one entry per
inventory monitor, in enumeration order. -/
structure BatchRotationResult where
  success_count : Nat
  failure_count : Nat
  results : List RotationResult
deriving DecidableEq

/-- RollbackInfo from rotate.h: one captured entry of a snapshot. -/
structure RollbackInfo where
  device_path : String
  original_orientation : Orientation
  original_width : Nat
  original_height : Nat
deriving DecidableEq

/-- DISP_CHANGE_SUCCESSFUL. -/
def DISP_CHANGE_SUCCESSFUL : Int := 0

/-- DISP_CHANGE_FAILED. -/
def DISP_CHANGE_FAILED : Int := -1

/-- DISP_CHANGE_BADMODE. -/
def DISP_CHANGE_BADMODE : Int := -2

-- ---------------------------------------------------------------------------
-- String utilities (util.c)
-- ---------------------------------------------------------------------------

/-- The character class of the C isspace predicate (default locale). -/
def c_isspace (c : Char) : Bool :=
  c == ' ' || c == '\t' || c == '\n' || c == '\x0b' || c == '\x0c' || c == '\r'

/-- str_trim (util.c:35): drop leading and trailing whitespace. -/
def trim_chars (cs : List Char) : List Char :=
  ((cs.dropWhile c_isspace).reverse.dropWhile c_isspace).reverse

/-- str_starts_with (util.c:17). -/
def str_starts_with (s p : String) : Bool :=
  p.data.isPrefixOf s.data

/-- str_contains (util.c:30): strstr-style substring test; the empty needle
is found in every haystack, as strstr does. -/
def str_contains (s sub : String) : Bool :=
  decide (List.IsInfix sub.data s.data)

/-- str_to_lower (util.c:52): C tolower in the default locale lowers only
ASCII letters, which is exactly what Char.toLower does. -/
def str_to_lower (s : String) : String :=
  String.mk (s.data.map Char.toLower)

/-- The comma-separated segments of a string, empty segments included
(what scanning for the delimiter yields before strtok filtering). -/
def split_segments (cs : List Char) : List (List Char) :=
  match cs with
  | [] => [[]]
  | c :: rest =>
    let segs := split_segments rest
    if c == ',' then [] :: segs
    else
      match segs with
      | [] => [[c]]
      | s :: ss => (c :: s) :: ss

/-- str_split on "," followed by the per-token str_trim (util.c:62-109).
strtok treats runs of delimiters as one separator, so empty segments never
become tokens; each surviving token is trimmed before being stored.
Note: the C code sizes the parts array by the comma count, so whenever an
empty segment exists (fewer strtok tokens than slots) the trailing slots
stay uninitialized and reading them, as parse_selector_list does, is
undefined behavior; this model iterates only the tokens actually
produced. -/
def str_split_commas (s : String) : List String :=
  ((split_segments s.data).filter (fun seg => !seg.isEmpty)).map
    (fun seg => String.mk (trim_chars seg))

-- ---------------------------------------------------------------------------
-- Selector engine (util.c)
-- ---------------------------------------------------------------------------

/-- The monitor-id fast path of parse_selector (util.c:121): first character
is M and the second is a digit.  A lone "M" reads the terminator, which is
not a digit, and falls through to the later checks. -/
def is_monitor_id_form (s : String) : Bool :=
  match s.data with
  | 'M' :: c :: _ => c.isDigit
  | _ => false

/-- strrchr for the closing quote (util.c:130, util.c:145): the characters
strictly before the last double quote, or none when no quote exists. -/
def before_last_quote (cs : List Char) : Option (List Char) :=
  match cs.reverse.dropWhile (fun c => c != '"') with
  | [] => none
  | _ :: rest => some rest.reverse

/-- parse_selector (util.c:112-167).  Returns none exactly where the C
returns NULL ignoring allocation failure: a device:" or name:" form whose
closing quote is missing leaves value NULL.  Every other input parses, the
final branch being the permissive monitor-id fallback. -/
def parse_selector (s : String) : Option Selector :=
  if is_monitor_id_form s then
    some { type := SelectorType.monitor_id, value := s }
  else if str_starts_with s "device:\"" then
    match before_last_quote (s.data.drop 8) with
    | some v => some { type := SelectorType.device_path, value := String.mk v }
    | none => none
  else if str_starts_with s "name:\"" then
    match before_last_quote (s.data.drop 6) with
    | some v => some { type := SelectorType.device_name, value := String.mk v }
    | none => none
  else
    some { type := SelectorType.monitor_id, value := s }

/-- parse_selector_list (util.c:169-212): parse each trimmed token, keep the
successful parses in order, and fail when none survive. -/
def parse_selector_list (s : String) : Option (List Selector) :=
  let sels := (str_split_commas s).filterMap parse_selector
  if sels.isEmpty then none else some sels

/-- matches_monitor (util.c:232-254). -/
def matches_monitor (sel : Selector) (monitor_id device_path device_name : String) : Bool :=
  match sel.type with
  | SelectorType.monitor_id => monitor_id == sel.value
  | SelectorType.device_path => device_path == sel.value
  | SelectorType.device_name =>
      str_contains (str_to_lower device_name) (str_to_lower sel.value)

/-- Whether any selector of the list matches the monitor (the inner loops of
rotate_monitors_filtered). -/
def selector_list_matches (sels : List Selector) (m : MonitorInfo) : Bool :=
  sels.any (fun s => matches_monitor s m.id m.device_path m.device_name)

-- ---------------------------------------------------------------------------
-- Rotation engine (rotate.c)
-- ---------------------------------------------------------------------------

/-- get_target_orientation (rotate.c:279-294). -/
def get_target_orientation (current : Orientation) (command : RotationCommand) : Orientation :=
  match command with
  | RotationCommand.landscape => Orientation.deg0
  | RotationCommand.portrait => Orientation.deg90
  | RotationCommand.toggle =>
      if current == Orientation.deg0 then Orientation.deg90 else Orientation.deg0

/-- should_swap_dimensions (rotate.c:296-302). -/
def should_swap_dimensions (from_orientation to_orientation : Orientation) : Bool :=
  let from_is_portrait :=
    from_orientation == Orientation.deg90 || from_orientation == Orientation.deg270
  let to_is_portrait :=
    to_orientation == Orientation.deg90 || to_orientation == Orientation.deg270
  from_is_portrait != to_is_portrait

/-- rotate_monitor (rotate.c:9-101): re-read the live settings, compute the
target, swap dimensions when crossing the landscape/portrait axis, and
either stop before the writer (dry run) or invoke it and map its code.
The NULL-monitor guard of the C is unrepresentable here and a failed read
leaves the zero-initialized orientations in place, as the C struct
initializer does.  The second component is the list of writer calls made. -/
def rotate_monitor (env : DisplayEnv) (monitor : MonitorInfo) (command : RotationCommand)
    (dry_run : Bool) : RotationResult × List WriteCall :=
  match env.read monitor.device_path with
  | none =>
    ({ success := false, error_code := DISP_CHANGE_BADMODE,
       old_orientation := Orientation.deg0, new_orientation := Orientation.deg0 }, [])
  | some devmode =>
    let old_orientation := devmode.orientation
    let new_orientation := get_target_orientation old_orientation command
    let swap := should_swap_dimensions old_orientation new_orientation
    let new_devmode : DevMode :=
      { orientation := new_orientation,
        width := if swap then devmode.height else devmode.width,
        height := if swap then devmode.width else devmode.height }
    let mask : FieldMask := { orientation := true, width := swap, height := swap }
    if dry_run then
      ({ success := true, error_code := 0,
         old_orientation := old_orientation, new_orientation := new_orientation }, [])
    else
      let code := env.write monitor.device_path mask new_devmode
      ({ success := code == DISP_CHANGE_SUCCESSFUL, error_code := code,
         old_orientation := old_orientation, new_orientation := new_orientation },
       [(monitor.device_path, mask, new_devmode)])

/-- The shouldProcess computation of rotate_monitors_filtered
(rotate.c:124-147): true by default; with a non-empty include list the
monitor must match one of its selectors; a match against a non-empty
exclude list forces false regardless. -/
def monitor_should_process (include_selectors exclude_selectors : Option (List Selector))
    (m : MonitorInfo) : Bool :=
  let after_include :=
    match include_selectors with
    | some sels => if sels.isEmpty then true else selector_list_matches sels m
    | none => true
  match exclude_selectors with
  | some sels =>
      if !sels.isEmpty && selector_list_matches sels m then false else after_include
  | none => after_include

/-- The synthetic outcome of a filtered-out monitor (rotate.c:156-162):
successful, DISP_CHANGE_SUCCESSFUL, previous and new orientation both the
inventory value. -/
def noop_result (m : MonitorInfo) : RotationResult :=
  { success := true, error_code := DISP_CHANGE_SUCCESSFUL,
    old_orientation := m.orientation, new_orientation := m.orientation }

/-- rotate_monitors_filtered (rotate.c:104-166): walk the inventory in
order; rotate the monitors that pass the filter, tallying their successes
and failures; record a synthetic no-op for the rest without touching the
tallies. -/
def rotate_monitors_filtered (env : DisplayEnv) (monitors : List MonitorInfo)
    (command : RotationCommand) (include_selectors exclude_selectors : Option (List Selector))
    (dry_run : Bool) : BatchRotationResult × List WriteCall :=
  match monitors with
  | [] => ({ success_count := 0, failure_count := 0, results := [] }, [])
  | m :: rest =>
    let tail := rotate_monitors_filtered env rest command include_selectors exclude_selectors dry_run
    if monitor_should_process include_selectors exclude_selectors m then
      let r := rotate_monitor env m command dry_run
      ({ success_count := (if r.1.success then 1 else 0) + tail.1.success_count,
         failure_count := (if r.1.success then 0 else 1) + tail.1.failure_count,
         results := r.1 :: tail.1.results }, r.2 ++ tail.2)
    else
      ({ success_count := tail.1.success_count,
         failure_count := tail.1.failure_count,
         results := noop_result m :: tail.1.results }, tail.2)

-- ---------------------------------------------------------------------------
-- Rollback manager (rotate.c)
-- ---------------------------------------------------------------------------

/-- create_rollback_state (rotate.c:169-215): read the live settings of
every monitor, skipping the unreadable ones, and return none when the
inventory is empty or nothing was captured.  The strdup-failure skip is an
allocation concern not modelled. -/
def create_rollback_state (env : DisplayEnv) (monitors : List MonitorInfo) :
    Option (List RollbackInfo) :=
  if monitors.isEmpty then none
  else
    let infos := monitors.filterMap (fun m =>
      match env.read m.device_path with
      | none => none
      | some d =>
          some { device_path := m.device_path, original_orientation := d.orientation,
                 original_width := d.width, original_height := d.height })
    if infos.isEmpty then none else some infos

/-- The DEVMODE contents a rollback write carries: the captured original
orientation, width and height (rotate.c:248-251). -/
def captured_mode (info : RollbackInfo) : DevMode :=
  { orientation := info.original_orientation,
    width := info.original_width, height := info.original_height }

/-- The dmFields assignment of the rollback path (rotate.c:252): all three
fields at once. -/
def all_fields_mask : FieldMask :=
  { orientation := true, width := true, height := true }

/-- The per-entry loop of rollback_monitors (rotate.c:222-263): a failed
live read marks the aggregate false and skips the entry; a dry run stops
after the read; otherwise the captured triple is written with all three
dmFields bits and a non-success code marks the aggregate false.  Processing
always continues to the next entry. -/
def rollback_entries (env : DisplayEnv) (infos : List RollbackInfo) (dry_run : Bool) :
    Bool × List WriteCall :=
  match infos with
  | [] => (true, [])
  | info :: rest =>
    let tail := rollback_entries env rest dry_run
    match env.read info.device_path with
    | none => (false, tail.2)
    | some _ =>
      if dry_run then tail
      else
        let code := env.write info.device_path all_fields_mask (captured_mode info)
        ((code == DISP_CHANGE_SUCCESSFUL) && tail.1,
         (info.device_path, all_fields_mask, captured_mode info) :: tail.2)

/-- rollback_monitors (rotate.c:217-266): vacuously true for a missing or
empty snapshot, otherwise the entry loop. -/
def rollback_monitors (env : DisplayEnv) (rollback_state : Option (List RollbackInfo))
    (dry_run : Bool) : Bool × List WriteCall :=
  match rollback_state with
  | none => (true, [])
  | some infos => rollback_entries env infos dry_run

-- ---------------------------------------------------------------------------
-- CLI layer: selector resolution and the confirm/revert controller (cli.c)
-- ---------------------------------------------------------------------------

/-- get_applicable_selectors (cli.c:379-406).  Priority: only over include
over saved default over the fallback.  The include branch re-parses the
value of the FIRST already-parsed include selector (cli.c:397); the
fallback parses the literal token "*" (cli.c:405).  An include list of
count zero cannot reach this function because parse_selector_list never
produces one; that unreachable case is mapped to none here. -/
def get_applicable_selectors (only_selector : Option Selector)
    (include_selectors : Option (List Selector)) (default_selector : Option String) :
    Option (List Selector) :=
  match only_selector with
  | some s => some [s]
  | none =>
    match include_selectors with
    | some [] => none
    | some (s :: _) => parse_selector_list s.value
    | none =>
      match default_selector with
      | some d => parse_selector_list d
      | none => parse_selector_list "*"

/-- The ternary of the batch call (cli.c:278): a resolved list with entries
is handed to the batch as the include set, an empty one as NULL. -/
def include_for_batch (applicable : List Selector) : Option (List Selector) :=
  if applicable.length > 0 then some applicable else none

/-- prompt_confirmation (cli.c:408-416): a single keystroke, lowered;
only y confirms. -/
def prompt_confirmation (key : Char) : Bool :=
  key.toLower == 'y'

/-- The countdown loop of start_revert_timer (cli.c:425-441).  One list
entry per second: the first keystroke observed during that second, if any.
A y keystroke confirms at once; any other keystroke merely ends that
second; an exhausted countdown means no confirmation. -/
def revert_countdown (keys : List (Option Char)) : Bool :=
  match keys with
  | [] => false
  | k :: rest =>
    match k with
    | some c => if c.toLower == 'y' then true else revert_countdown rest
    | none => revert_countdown rest

/-- start_revert_timer (cli.c:418-445): a missing snapshot returns false
before any countdown; otherwise the countdown runs and an unconfirmed
expiry invokes rollback_monitors with dry_run false. -/
def start_revert_timer (env : DisplayEnv) (keys : List (Option Char))
    (rollback_state : Option (List RollbackInfo)) : Bool × List WriteCall :=
  match rollback_state with
  | none => (false, [])
  | some infos =>
    if revert_countdown keys then (true, [])
    else rollback_monitors env (some infos) false

/-- The confirm/revert block of handle_rotation_command (cli.c:283-304),
returning the restore writer calls it causes.  Entered only when not a dry
run, confirmation is not suppressed and the batch counted a success; the
timed path runs when a revert timer is configured, the interactive prompt
otherwise, whose declined branch restores only when a snapshot exists. -/
def confirm_revert_tail (env : DisplayEnv) (dry_run no_confirm : Bool)
    (success_count : Nat) (revert_seconds : Nat) (timer_keys : List (Option Char))
    (confirm_key : Char) (rollback_state : Option (List RollbackInfo)) : List WriteCall :=
  if dry_run || no_confirm || success_count == 0 then []
  else if revert_seconds > 0 then
    (start_revert_timer env timer_keys rollback_state).2
  else if prompt_confirmation confirm_key then []
  else
    match rollback_state with
    | some st => (rollback_monitors env (some st) false).2
    | none => []

/-- The snapshot creation and confirm/revert block of
handle_rotation_command (cli.c:271-304): a snapshot is captured only when a
revert timer is configured (cli.c:272). -/
def rotation_confirm_phase (env : DisplayEnv) (monitors : List MonitorInfo)
    (success_count : Nat) (dry_run no_confirm : Bool) (revert_seconds : Nat)
    (timer_keys : List (Option Char)) (confirm_key : Char) : List WriteCall :=
  let rollback_state :=
    if revert_seconds > 0 then create_rollback_state env monitors else none
  confirm_revert_tail env dry_run no_confirm success_count revert_seconds
    timer_keys confirm_key rollback_state

/-- The exit code of handle_rotation_command (cli.c:325-331). -/
def rotation_exit_code (result : BatchRotationResult) : Int :=
  if result.failure_count > 0 then 3
  else if result.success_count == 0 then 2
  else 0

/-- handle_rotation_command after selector resolution (cli.c:270-331):
the batch, the restore calls of the confirm/revert phase, and the exit
code, which is computed from the batch alone. -/
def handle_rotation_result (env : DisplayEnv) (monitors : List MonitorInfo)
    (command : RotationCommand) (include_selectors exclude_selectors : Option (List Selector))
    (dry_run no_confirm : Bool) (revert_seconds : Nat)
    (timer_keys : List (Option Char)) (confirm_key : Char) :
    Int × List WriteCall × List WriteCall :=
  let batch := rotate_monitors_filtered env monitors command include_selectors
    exclude_selectors dry_run
  let restore := rotation_confirm_phase env monitors batch.1.success_count dry_run
    no_confirm revert_seconds timer_keys confirm_key
  (rotation_exit_code batch.1, batch.2, restore)

-- ---------------------------------------------------------------------------
-- Concrete fixtures for the evaluated claims
-- ---------------------------------------------------------------------------

/-- A three-monitor inventory member: M1. -/
def m1 : MonitorInfo :=
  { id := "M1", device_name := "Dell U2720Q", device_path := "\\\\.\\DISPLAY1",
    width := 1920, height := 1080, orientation := Orientation.deg0, device_id := "MON1" }

/-- A three-monitor inventory member: M2. -/
def m2 : MonitorInfo :=
  { id := "M2", device_name := "LG HDR 4K", device_path := "\\\\.\\DISPLAY2",
    width := 1920, height := 1080, orientation := Orientation.deg0, device_id := "MON2" }

/-- A three-monitor inventory member: M3. -/
def m3 : MonitorInfo :=
  { id := "M3", device_name := "Acer XB273", device_path := "\\\\.\\DISPLAY3",
    width := 1920, height := 1080, orientation := Orientation.deg0, device_id := "MON3" }

/-- An API environment where every read succeeds and every write is
accepted. -/
def envOk : DisplayEnv :=
  { read := fun _ => some { orientation := Orientation.deg0, width := 1920, height := 1080 },
    write := fun _ _ _ => DISP_CHANGE_SUCCESSFUL }

/-- An API environment where no current settings can be read. -/
def envDead : DisplayEnv :=
  { read := fun _ => none,
    write := fun _ _ _ => DISP_CHANGE_SUCCESSFUL }

/-- An API environment where reads succeed but the write for DISPLAY2 is
rejected by the driver. -/
def envFailM2 : DisplayEnv :=
  { read := fun _ => some { orientation := Orientation.deg0, width := 1920, height := 1080 },
    write := fun path _ _ =>
      if path == "\\\\.\\DISPLAY2" then DISP_CHANGE_FAILED else DISP_CHANGE_SUCCESSFUL }

/-- The monitor-id selector M1. -/
def selM1 : Selector := { type := SelectorType.monitor_id, value := "M1" }

/-- The monitor-id selector M3. -/
def selM3 : Selector := { type := SelectorType.monitor_id, value := "M3" }

/-- A captured rollback entry for DISPLAY1 at 0 degrees, 1920x1080. -/
def info1 : RollbackInfo :=
  { device_path := "\\\\.\\DISPLAY1", original_orientation := Orientation.deg0,
    original_width := 1920, original_height := 1080 }


-- ---------------------------------------------------------------------------
-- Helper lemmas
-- ---------------------------------------------------------------------------

/-- The outcome sequence of a batch: one entry per inventory monitor, in
order, the processed ones carrying their rotate_monitor result and the
filtered ones the synthetic no-op. -/
theorem rmf_results (env : DisplayEnv) (command : RotationCommand)
    (incl excl : Option (List Selector)) (dry_run : Bool) :
    ∀ monitors : List MonitorInfo,
      (rotate_monitors_filtered env monitors command incl excl dry_run).1.results =
        monitors.map (fun m =>
          if monitor_should_process incl excl m then (rotate_monitor env m command dry_run).1
          else noop_result m) := by
  intro monitors
  induction monitors with
  | nil => rfl
  | cons m rest ih =>
    simp only [rotate_monitors_filtered, List.map]
    split
    · simpa using ih
    · simpa using ih

/-- success_count tallies exactly the processed monitors whose rotation
succeeded. -/
theorem rmf_success_count (env : DisplayEnv) (command : RotationCommand)
    (incl excl : Option (List Selector)) (dry_run : Bool) :
    ∀ monitors : List MonitorInfo,
      (rotate_monitors_filtered env monitors command incl excl dry_run).1.success_count =
        monitors.countP (fun m => monitor_should_process incl excl m &&
          (rotate_monitor env m command dry_run).1.success) := by
  intro monitors
  induction monitors with
  | nil => rfl
  | cons m rest ih =>
    simp only [rotate_monitors_filtered, List.countP_cons]
    by_cases hp : monitor_should_process incl excl m
    · by_cases hs : (rotate_monitor env m command dry_run).1.success
      · simp [hp, hs, ih]
        omega
      · simp [hp, hs, ih]
    · simp [hp, ih]

/-- failure_count tallies exactly the processed monitors whose rotation
failed. -/
theorem rmf_failure_count (env : DisplayEnv) (command : RotationCommand)
    (incl excl : Option (List Selector)) (dry_run : Bool) :
    ∀ monitors : List MonitorInfo,
      (rotate_monitors_filtered env monitors command incl excl dry_run).1.failure_count =
        monitors.countP (fun m => monitor_should_process incl excl m &&
          !(rotate_monitor env m command dry_run).1.success) := by
  intro monitors
  induction monitors with
  | nil => rfl
  | cons m rest ih =>
    simp only [rotate_monitors_filtered, List.countP_cons]
    by_cases hp : monitor_should_process incl excl m
    · by_cases hs : (rotate_monitor env m command dry_run).1.success
      · simp [hp, hs, ih]
      · simp [hp, hs, ih]
        omega
    · simp [hp, ih]

/-- A match against a non-empty exclude list forces shouldProcess false. -/
theorem exclude_overrides (incl : Option (List Selector)) (m : MonitorInfo)
    (es : List Selector) (hne : es ≠ []) (hm : selector_list_matches es m = true) :
    monitor_should_process incl (some es) m = false := by
  cases es with
  | nil => exact absurd rfl hne
  | cons a as => simp [monitor_should_process, hm]

/-- The writer calls of a non-dry rollback: one per entry whose live read
succeeded, in order, each carrying the captured triple under the
all-fields mask. -/
theorem rollback_entries_calls (env : DisplayEnv) :
    ∀ infos : List RollbackInfo,
      (rollback_entries env infos false).2 =
        (infos.filter (fun i => (env.read i.device_path).isSome)).map
          (fun i => (i.device_path, all_fields_mask, captured_mode i)) := by
  intro infos
  induction infos with
  | nil => rfl
  | cons info rest ih =>
    simp only [rollback_entries]
    cases h : env.read info.device_path with
    | none => simp [h, ih]
    | some d => simp [h, ih]

/-- The aggregate boolean of a non-dry rollback: true exactly when every
entry could be read and its write was accepted. -/
theorem rollback_entries_ok (env : DisplayEnv) :
    ∀ infos : List RollbackInfo,
      (rollback_entries env infos false).1 =
        infos.all (fun i => (env.read i.device_path).isSome &&
          (env.write i.device_path all_fields_mask (captured_mode i) ==
            DISP_CHANGE_SUCCESSFUL)) := by
  intro infos
  induction infos with
  | nil => rfl
  | cons info rest ih =>
    simp only [rollback_entries, List.all_cons]
    cases h : env.read info.device_path with
    | none => simp [h]
    | some d => simp [h, ih]

-- ---------------------------------------------------------------------------
-- Claim theorems
-- ---------------------------------------------------------------------------

/-- Claim C1, evaluated on the code at the failing input.  With no only
selector, no include list and no saved default, get_applicable_selectors
resolves to the single Monitor-ID selector "*" (not an absent or empty
set), and handing that set to the batch leaves every monitor unprocessed:
for the two-monitor inventory both outcomes are synthetic no-ops, the
success tally is zero and the display writer is never called, although a
direct rotation of M1 would have succeeded in the same environment. -/
theorem C1_code_eval :
    get_applicable_selectors none none none =
      some [{ type := SelectorType.monitor_id, value := "*" }] ∧
    (rotate_monitors_filtered envOk [m1, m2] RotationCommand.portrait
        (include_for_batch [{ type := SelectorType.monitor_id, value := "*" }]) none false).2 = [] ∧
    (rotate_monitors_filtered envOk [m1, m2] RotationCommand.portrait
        (include_for_batch [{ type := SelectorType.monitor_id, value := "*" }]) none false).1 =
      { success_count := 0, failure_count := 0, results := [noop_result m1, noop_result m2] } ∧
    (rotate_monitor envOk m1 RotationCommand.portrait false).1.success = true := by
  decide

/-- Claim C2, evaluated on the code.  The prompt decision follows the spec
(y and Y confirm, anything else declines), but in interactive-confirm mode
(revert timer zero) the rotation command never creates a rollback snapshot,
so the declined branch performs no restore call at all, for every
environment, inventory, success count and keystroke. -/
theorem C2_code_eval :
    prompt_confirmation 'y' = true ∧
    prompt_confirmation 'Y' = true ∧
    prompt_confirmation 'n' = false ∧
    (∀ (env : DisplayEnv) (monitors : List MonitorInfo) (success_count : Nat)
        (timer_keys : List (Option Char)) (confirm_key : Char),
        rotation_confirm_phase env monitors success_count false false 0 timer_keys
          confirm_key = []) := by
  refine ⟨by decide, by decide, by decide, ?_⟩
  intro env monitors success_count timer_keys confirm_key
  unfold rotation_confirm_phase confirm_revert_tail
  simp only [gt_iff_lt, lt_self_iff_false, if_false]
  split
  · rfl
  · split
    · rfl
    · rfl

/-- Interactive-confirm mode at the concrete failing input: one changed
monitor, keystroke n, no revert timer, and still no restore call. -/
theorem C2_witness :
    rotation_confirm_phase envOk [m1] 1 false false 0 [] 'n' = [] :=
  C2_code_eval.2.2.2 envOk [m1] 1 [] 'n'

/-- Claim C3, evaluated on the code at the failing input.  The include list
"M1,M3" parses to both selectors, yet selector resolution re-parses only
the value of the first one, so the filter handed to the batch is [M1]:
monitor M3 matches a selector of the parsed include list but does not
survive the filtering, and only M1 is processed. -/
theorem C3_code_eval :
    parse_selector_list "M1,M3" = some [selM1, selM3] ∧
    get_applicable_selectors none (some [selM1, selM3]) none = some [selM1] ∧
    matches_monitor selM3 m3.id m3.device_path m3.device_name = true ∧
    monitor_should_process (some [selM1]) none m3 = false ∧
    (rotate_monitors_filtered envOk [m1, m2, m3] RotationCommand.portrait
        (some [selM1]) none false).1.success_count = 1 ∧
    (rotate_monitors_filtered envOk [m1, m2, m3] RotationCommand.portrait
        (some [selM1]) none false).1.results =
      [(rotate_monitor envOk m1 RotationCommand.portrait false).1,
       noop_result m2, noop_result m3] := by
  decide

/-- Counterexample to claim C4 as stated: a filtered-out monitor receives a
successful synthetic no-op outcome, yet successCount stays zero, so no-ops
do not count toward successCount. -/
theorem C4_counterexample :
    (rotate_monitors_filtered envOk [m1] RotationCommand.portrait
        (some [{ type := SelectorType.monitor_id, value := "M2" }]) none false).1.results =
      [noop_result m1] ∧
    (noop_result m1).success = true ∧
    (rotate_monitors_filtered envOk [m1] RotationCommand.portrait
        (some [{ type := SelectorType.monitor_id, value := "M2" }]) none false).1.success_count
      ≠ 1 := by
  decide

/-- Claim C4 as amended: an exclude match forces a monitor out regardless
of includes; the outcome sequence has exactly one entry per inventory
monitor in order, filtered monitors carrying a synthetic successful no-op
with unchanged orientation; successCount and failureCount tally only the
monitors actually processed, no-ops counting toward neither; and one
monitor failing never aborts the rest, the concrete three-monitor batch
with monitor 2 rejected yielding successCount 2, failureCount 1 and three
entries. -/
theorem C4_amended (env : DisplayEnv) (monitors : List MonitorInfo)
    (command : RotationCommand) (incl excl : Option (List Selector)) (dry_run : Bool) :
    (∀ (m : MonitorInfo) (es : List Selector), excl = some es → es ≠ [] →
        selector_list_matches es m = true → monitor_should_process incl excl m = false) ∧
    (rotate_monitors_filtered env monitors command incl excl dry_run).1.results =
      monitors.map (fun m =>
        if monitor_should_process incl excl m then (rotate_monitor env m command dry_run).1
        else noop_result m) ∧
    (∀ m : MonitorInfo, (noop_result m).success = true ∧
        (noop_result m).old_orientation = (noop_result m).new_orientation) ∧
    (rotate_monitors_filtered env monitors command incl excl dry_run).1.success_count =
      monitors.countP (fun m => monitor_should_process incl excl m &&
        (rotate_monitor env m command dry_run).1.success) ∧
    (rotate_monitors_filtered env monitors command incl excl dry_run).1.failure_count =
      monitors.countP (fun m => monitor_should_process incl excl m &&
        !(rotate_monitor env m command dry_run).1.success) ∧
    (rotate_monitors_filtered envFailM2 [m1, m2, m3] RotationCommand.portrait
        none none false).1 =
      { success_count := 2, failure_count := 1,
        results := (rotate_monitors_filtered envFailM2 [m1, m2, m3]
          RotationCommand.portrait none none false).1.results } ∧
    (rotate_monitors_filtered envFailM2 [m1, m2, m3] RotationCommand.portrait
        none none false).1.results.length = 3 := by
  refine ⟨?_, rmf_results env command incl excl dry_run monitors, ?_, ?_, ?_, ?_, ?_⟩
  · intro m es he hne hm
    subst he
    exact exclude_overrides incl m es hne hm
  · intro m
    exact ⟨rfl, rfl⟩
  · exact rmf_success_count env command incl excl dry_run monitors
  · exact rmf_failure_count env command incl excl dry_run monitors
  · decide
  · decide

/-- The exclude-overrides-include conjunct of the amended C4, applied at a
concrete input: M3 matches both the include list and the exclude list and
is not processed. -/
theorem C4_witness :
    monitor_should_process (some [selM1, selM3]) (some [selM3]) m3 = false :=
  (C4_amended envOk [] RotationCommand.portrait (some [selM1, selM3]) (some [selM3])
    false).1 m3 [selM3] rfl (by decide) (by decide)

/-- Counterexample to claim C5 as stated: toggling from 180 degrees yields
0 degrees, not 90. -/
theorem C5_counterexample :
    get_target_orientation Orientation.deg180 RotationCommand.toggle ≠
      Orientation.deg90 := by
  decide

/-- Claim C5 as amended: toggle maps 0 to 90 and every other orientation
(90, 180, 270) to 0, and toggling twice from 0 returns to 0. -/
theorem C5_amended :
    get_target_orientation Orientation.deg0 RotationCommand.toggle = Orientation.deg90 ∧
    get_target_orientation Orientation.deg90 RotationCommand.toggle = Orientation.deg0 ∧
    get_target_orientation Orientation.deg180 RotationCommand.toggle = Orientation.deg0 ∧
    get_target_orientation Orientation.deg270 RotationCommand.toggle = Orientation.deg0 ∧
    get_target_orientation
      (get_target_orientation Orientation.deg0 RotationCommand.toggle)
      RotationCommand.toggle = Orientation.deg0 := by
  decide

/-- Counterexample to claim C6 as stated: in dry-run mode a monitor whose
live settings cannot be read gets a failure outcome, not a success (the
writer is still never called). -/
theorem C6_counterexample :
    (rotate_monitor envDead m1 RotationCommand.portrait true).1.success = false ∧
    (rotate_monitor envDead m1 RotationCommand.portrait true).2 = [] := by
  decide

/-- Claim C6 as amended: with dryRun true, rotateOne never invokes the
display-settings writer; a monitor whose live settings are readable gets a
successful outcome with the old and the computed new orientation; a
monitor whose live read fails gets a failure outcome. -/
theorem C6_amended (env : DisplayEnv) (monitor : MonitorInfo) (command : RotationCommand) :
    (rotate_monitor env monitor command true).2 = [] ∧
    (∀ d : DevMode, env.read monitor.device_path = some d →
      (rotate_monitor env monitor command true).1 =
        { success := true, error_code := 0, old_orientation := d.orientation,
          new_orientation := get_target_orientation d.orientation command }) ∧
    (env.read monitor.device_path = none →
      (rotate_monitor env monitor command true).1.success = false) := by
  refine ⟨?_, ?_, ?_⟩
  · cases h : env.read monitor.device_path <;> simp [rotate_monitor, h]
  · intro d hd
    simp [rotate_monitor, hd]
  · intro h
    simp [rotate_monitor, h]

/-- The amended C6 at a concrete input: dry-run portrait on a readable
monitor makes no writer call and reports success with the computed
orientations. -/
theorem C6_witness :
    (rotate_monitor envOk m1 RotationCommand.portrait true).2 = [] ∧
    (rotate_monitor envOk m1 RotationCommand.portrait true).1 =
      { success := true, error_code := 0, old_orientation := Orientation.deg0,
        new_orientation := Orientation.deg90 } := by
  have h := C6_amended envOk m1 RotationCommand.portrait
  exact ⟨h.1, h.2.1 { orientation := Orientation.deg0, width := 1920, height := 1080 } rfl⟩

/-- Counterexample to claim C7 as stated: a part that is empty after
trimming does not make the parse fail (it becomes a Monitor-ID selector
with empty value), and a part with an unterminated quote inside a longer
list is skipped rather than failing the list. -/
theorem C7_counterexample :
    parse_selector_list " " =
      some [{ type := SelectorType.monitor_id, value := "" }] ∧
    parse_selector_list "M1,device:\"x" = some [selM1] := by
  decide

/-- Claim C7 as amended: parseSelectorList fails only when no part parses:
a sole device:-quoted or name:-quoted part with no closing quote fails and
an empty list fails, but a part that is empty after trimming parses as a
Monitor-ID selector with empty value, and a malformed part in a longer
list is skipped rather than failing the whole list. -/
theorem C7_amended :
    parse_selector_list "device:\"x" = none ∧
    parse_selector_list "name:\"x" = none ∧
    parse_selector_list "" = none ∧
    parse_selector_list " " =
      some [{ type := SelectorType.monitor_id, value := "" }] ∧
    parse_selector_list " , " =
      some [{ type := SelectorType.monitor_id, value := "" },
            { type := SelectorType.monitor_id, value := "" }] ∧
    parse_selector_list "M1,device:\"x" = some [selM1] := by
  decide

/-- Claim C8: for every orientation pair, dimensions are swapped iff
exactly one of the two orientations is portrait (90 or 270). -/
theorem C8_swap_iff :
    ∀ f t : Orientation, should_swap_dimensions f t = true ↔
      Xor' (f = Orientation.deg90 ∨ f = Orientation.deg270)
        (t = Orientation.deg90 ∨ t = Orientation.deg270) := by
  intro f t
  cases f <;> cases t <;> decide

/-- The C8 equivalence at a concrete pair: 0 to 90 crosses the axis. -/
theorem C8_witness :
    should_swap_dimensions Orientation.deg0 Orientation.deg90 = true ↔
      Xor' (Orientation.deg0 = Orientation.deg90 ∨ Orientation.deg0 = Orientation.deg270)
        (Orientation.deg90 = Orientation.deg90 ∨ Orientation.deg90 = Orientation.deg270) :=
  C8_swap_iff Orientation.deg0 Orientation.deg90

/-- Counterexample to claim C9 as stated: a captured entry whose
pre-restore live read fails is skipped, so the captured triple is not
applied for that entry (and the aggregate is false). -/
theorem C9_counterexample :
    (rollback_monitors envDead (some [info1]) false).2 = [] ∧
    (rollback_monitors envDead (some [info1]) false).2 ≠
      [(info1.device_path, all_fields_mask, captured_mode info1)] ∧
    (rollback_monitors envDead (some [info1]) false).1 = false := by
  decide

/-- Claim C9 as amended: restoring with dryRun false applies, for every
captured entry whose pre-restore live read succeeds, the captured original
orientation, width and height together under the all-fields mask,
independent of the current state; an unreadable entry is skipped without a
write; one entry never stops the rest; and the returned boolean is true
iff every entry, its pre-restore read included, succeeded. -/
theorem C9_amended (env : DisplayEnv) (infos : List RollbackInfo) :
    (rollback_monitors env (some infos) false).2 =
      (infos.filter (fun i => (env.read i.device_path).isSome)).map
        (fun i => (i.device_path, all_fields_mask, captured_mode i)) ∧
    (rollback_monitors env (some infos) false).1 =
      infos.all (fun i => (env.read i.device_path).isSome &&
        (env.write i.device_path all_fields_mask (captured_mode i) ==
          DISP_CHANGE_SUCCESSFUL)) :=
  ⟨rollback_entries_calls env infos, rollback_entries_ok env infos⟩

/-- The amended C9 at a concrete input: a readable entry is restored with
exactly one write carrying the captured triple, and the aggregate is
true. -/
theorem C9_witness :
    (rollback_monitors envOk (some [info1]) false).2 =
      [(info1.device_path, all_fields_mask, captured_mode info1)] ∧
    (rollback_monitors envOk (some [info1]) false).1 = true := by
  have h := C9_amended envOk [info1]
  refine ⟨?_, ?_⟩
  · rw [h.1]
    decide
  · rw [h.2]
    decide

/-- Claim C10: when every live read fails, snapshot creation captures
nothing and returns none, the timed auto-revert path returns false at once
with no countdown and no restore call, the whole confirm phase makes no
writer call, and the command exit code is the batch outcome code, whatever
the revert path did. -/
theorem C10_no_snapshot (env : DisplayEnv) (monitors : List MonitorInfo)
    (revert_seconds success_count : Nat) (timer_keys : List (Option Char))
    (confirm_key : Char)
    (h : ∀ m ∈ monitors, env.read m.device_path = none)
    (hr : 0 < revert_seconds) :
    create_rollback_state env monitors = none ∧
    start_revert_timer env timer_keys (create_rollback_state env monitors) = (false, []) ∧
    rotation_confirm_phase env monitors success_count false false revert_seconds
      timer_keys confirm_key = [] ∧
    (∀ (command : RotationCommand) (incl excl : Option (List Selector))
        (dry_run no_confirm : Bool),
      (handle_rotation_result env monitors command incl excl dry_run no_confirm
          revert_seconds timer_keys confirm_key).1 =
        rotation_exit_code
          (rotate_monitors_filtered env monitors command incl excl dry_run).1) := by
  have hnone : create_rollback_state env monitors = none := by
    cases monitors with
    | nil => rfl
    | cons m rest =>
      simp only [create_rollback_state, List.isEmpty_cons, if_false]
      have hfm : (m :: rest).filterMap (fun mm =>
          match env.read mm.device_path with
          | none => none
          | some d =>
              some { device_path := mm.device_path, original_orientation := d.orientation,
                     original_width := d.width, original_height := d.height }) =
          ([] : List RollbackInfo) := by
        rw [List.filterMap_eq_nil_iff]
        intro a ha
        rw [h a ha]
      simp [hfm]
  refine ⟨hnone, ?_, ?_, ?_⟩
  · rw [hnone]
    rfl
  · unfold rotation_confirm_phase confirm_revert_tail
    rw [if_pos hr, hnone]
    split
    · rfl
    · rfl
  · intro command incl excl dry_run no_confirm
    rfl

/-- Claim C10 at a concrete input: a dead display API, one monitor, a
three-second timer with a declining keystroke. -/
theorem C10_witness :
    create_rollback_state envDead [m1] = none ∧
    start_revert_timer envDead [none, none, some 'n']
      (create_rollback_state envDead [m1]) = (false, []) ∧
    rotation_confirm_phase envDead [m1] 1 false false 3 [none, none, some 'n'] 'n' = [] ∧
    (∀ (command : RotationCommand) (incl excl : Option (List Selector))
        (dry_run no_confirm : Bool),
      (handle_rotation_result envDead [m1] command incl excl dry_run no_confirm 3
          [none, none, some 'n'] 'n').1 =
        rotation_exit_code
          (rotate_monitors_filtered envDead [m1] command incl excl dry_run).1) :=
  C10_no_snapshot envDead [m1] 3 1 [none, none, some 'n'] 'n'
    (fun _ _ => rfl) (by decide)

end MosDef
